import Mathlib

/-!
Verification of the SwiftAgent routing core: shallow embeddings of
`src/Core/load_balancer.py` and `src/Core/llm_manager.py`, with theorems
settling behavioural claims about provider statistics, auto-disable,
scoring, selection, retry, and recovery backoff.  Python floats are
modelled as exact rationals; every value exercised by these claims is
small enough that binary-float rounding cannot change any comparison
made by the source.
-/

namespace SwiftAgent

/-- ProviderStats from `src/Core/load_balancer.py` lines 27-39: the
per-provider counters kept by the LoadBalancer.  Python floats become
rationals; `current_load` is an `Int` like the Python int it models. -/
structure ProviderStats where
  name : String
  total_requests : Nat := 0
  successful_requests : Nat := 0
  failed_requests : Nat := 0
  total_response_time : ℚ := 0
  average_response_time : ℚ := 0
  last_used : ℚ := 0
  is_available : Bool := true
  cost_per_token : ℚ := 0
  current_load : Int := 0
deriving DecidableEq

/-- Fresh statistics record created by `LoadBalancer.add_provider`
(load_balancer.py lines 53-60): all counters zero, available. -/
def initStats (name : String) (cost : ℚ) : ProviderStats :=
  { name := name, cost_per_token := cost }

/-- Success path of `LoadBalancer.execute_request` (load_balancer.py
lines 152-200) for one completed request: the pre-dispatch counter and
in-flight updates, the success branch, and the finally-block decrement.
`t` is the measured response time, `now` the clock value read at
dispatch. -/
def recordSuccess (s : ProviderStats) (t now : ℚ) : ProviderStats :=
  let s1 := { s with total_requests := s.total_requests + 1,
                     current_load := s.current_load + 1,
                     last_used := now }
  let s2 := { s1 with successful_requests := s1.successful_requests + 1,
                      total_response_time := s1.total_response_time + t }
  let s3 := { s2 with average_response_time :=
                        s2.total_response_time / (s2.total_requests : ℚ) }
  { s3 with current_load := s3.current_load - 1 }

/-- Failure path of `LoadBalancer.execute_request` (load_balancer.py
lines 152-200): counter updates, the failure branch including the
auto-disable check `failure_rate > 0.5 and total_requests > 10` from
lines 192-194, then the finally-block decrement. -/
def recordFailure (s : ProviderStats) (t now : ℚ) : ProviderStats :=
  let s1 := { s with total_requests := s.total_requests + 1,
                     current_load := s.current_load + 1,
                     last_used := now }
  let s2 := { s1 with failed_requests := s1.failed_requests + 1,
                      total_response_time := s1.total_response_time + t }
  let s3 := { s2 with average_response_time :=
                        s2.total_response_time / (s2.total_requests : ℚ) }
  let failure_rate : ℚ := (s3.failed_requests : ℚ) / (s3.total_requests : ℚ)
  let s4 := if failure_rate > 1/2 ∧ s3.total_requests > 10
            then { s3 with is_available := false } else s3
  { s4 with current_load := s4.current_load - 1 }

/-- One completed `execute_request` call on a provider, abstracting the
dispatch outcome and the two clock readings. -/
inductive LBOp where
  | success (t now : ℚ) : LBOp
  | failure (t now : ℚ) : LBOp
deriving DecidableEq

/-- Effect of one completed `execute_request` on a provider's stats. -/
def applyOp (s : ProviderStats) : LBOp → ProviderStats
  | .success t now => recordSuccess s t now
  | .failure t now => recordFailure s t now

/-- Effect of a sequence of completed `execute_request` calls. -/
def applyOps (s : ProviderStats) (ops : List LBOp) : ProviderStats :=
  ops.foldl applyOp s

/-- `LoadBalancer._round_robin` (load_balancer.py lines 95-99): index the
available list at `current_index % len`, then advance the cursor by one. -/
def round_robin (avail : List String) (i : Nat) : Option String × Nat :=
  (avail[i % avail.length]?, i + 1)

/-- Sequence of `n` consecutive round-robin selections over a fixed
available list, starting from cursor `i`. -/
def rr_selections (avail : List String) : Nat → Nat → List (Option String)
  | 0, _ => []
  | n + 1, i =>
      (round_robin avail i).1 :: rr_selections avail n (round_robin avail i).2

/-- ProviderTier from `src/Core/llm_manager.py` lines 32-37. -/
inductive ProviderTier where
  | FREE | FREEMIUM | PAID | ENTERPRISE
deriving DecidableEq

/-- Tier weights from the `tier_scores` dict inside
`LLMManager._calculate_provider_score` (llm_manager.py lines 242-247). -/
def tier_score : ProviderTier → ℚ
  | .FREE => 50
  | .FREEMIUM => 30
  | .PAID => 10
  | .ENTERPRISE => 5

/-- LLMProvider configuration from llm_manager.py lines 39-56, restricted
to the fields the routing logic reads.  The omitted fields (type,
endpoint, api_key, model, max_tokens, context_window, supports_streaming,
rate_limit) are never read by registration, scoring, selection or the
generate loop modelled here. -/
structure LLMProviderConfig where
  name : String
  tier : ProviderTier
  priority : Int := 1
  cost_per_token : ℚ := 0
  supports_vision : Bool := false
  supports_functions : Bool := false
  enabled : Bool := true
deriving DecidableEq

/-- LLMRequest from llm_manager.py lines 58-68, restricted to what the
routing logic reads: `messages` as the list of message content strings
(only `msg["content"]` is ever read, by `estimate_cost`), and the
truthiness of the optional `images` and `tools` lists (the only way
`can_handle_request` reads them). -/
structure LLMRequest where
  messages : List String := []
  images : Bool := false
  tools : Bool := false
deriving DecidableEq

/-- Per-provider usage_stats dict entry created by
`LLMManager.register_provider` (llm_manager.py lines 139-144). -/
structure UsageStats where
  requests : Nat := 0
  errors : Nat := 0
  total_tokens : Nat := 0
  total_cost : ℚ := 0
deriving DecidableEq

/-- Fresh usage_stats entry: all counters zero. -/
def fresh_usage : UsageStats := {}

/-- One registered provider as the manager sees it: its config, its
usage_stats entry and its performance_history list.  The manager's three
name-keyed dicts (llm_manager.py lines 129-133) are modelled as one
insertion-ordered list, matching Python dict iteration order. -/
structure ManagerProvider where
  config : LLMProviderConfig
  usage : UsageStats
  history : List ℚ
deriving DecidableEq

/-- `BaseLLMProvider.can_handle_request` (llm_manager.py lines 113-119). -/
def can_handle_request (c : LLMProviderConfig) (req : LLMRequest) : Bool :=
  if req.images && !c.supports_vision then false
  else if req.tools && !c.supports_functions then false
  else true

/-- Number of words of a message content string, as Python's
`str.split()` counts them: split on whitespace, drop empty pieces. -/
def word_count (s : String) : Nat :=
  ((s.split fun c => c.isWhitespace).filter fun w => w != "").length

/-- `BaseLLMProvider.estimate_cost` (llm_manager.py lines 121-124):
estimated tokens are the total word count times 1.3, times the cost per
token. -/
def estimate_cost (c : LLMProviderConfig) (req : LLMRequest) : ℚ :=
  ((req.messages.map word_count).sum : ℚ) * (13 / 10) * c.cost_per_token

/-- Last `n` elements of a list, as Python's `l[-n:]` slice. -/
def lastN (n : Nat) (l : List ℚ) : List ℚ :=
  l.drop (l.length - n)

/-- `LLMManager._calculate_provider_score` (llm_manager.py lines
234-270).  A registered provider always has a performance_history entry,
so the `if name in performance_history` guard is the `history ≠ []`
test; the usage_stats entry always exists, so `.get` defaults never
fire. -/
def calculate_provider_score (p : ManagerProvider) (req : LLMRequest) : ℚ :=
  let score : ℚ := 0
  let score := score + (10 - (p.config.priority : ℚ)) * 10
  let score := score + tier_score p.config.tier
  let score := score +
    (if p.history = [] then 0
     else
       let last10 := lastN 10 p.history
       let avg_latency := last10.sum / (last10.length : ℚ)
       max 0 (10 - avg_latency))
  let score := score +
    (if p.usage.requests > 0 then
       (1 - (p.usage.errors : ℚ) / (p.usage.requests : ℚ)) * 20
     else 0)
  let estimated_cost := estimate_cost p.config req
  score + (if estimated_cost = 0 then 30 else max 0 (10 - estimated_cost * 1000))

/-- Stable insertion of a scored element into a descending-sorted list:
the element goes before the first strictly-smaller-or-equal score it
beats, and after every earlier element with a score at least as large. -/
def insertDesc {α : Type} (x : α × ℚ) : List (α × ℚ) → List (α × ℚ)
  | [] => [x]
  | y :: l => if x.2 ≥ y.2 then x :: y :: l else y :: insertDesc x l

/-- Stable descending sort by score, modelling Python's
`list.sort(key=lambda x: x[1], reverse=True)` (llm_manager.py line 231):
descending in the score, with equal-score elements keeping their
original relative order. -/
def sortDesc {α : Type} : List (α × ℚ) → List (α × ℚ)
  | [] => []
  | x :: l => insertDesc x (sortDesc l)

/-- First element of a scored list attaining the maximal score: a later
element replaces an earlier one only when its score is strictly larger.
Used to characterise which element a stable descending sort puts
first. -/
def firstMaxByScore {α : Type} : List (α × ℚ) → Option (α × ℚ)
  | [] => none
  | x :: l =>
      match firstMaxByScore l with
      | none => some x
      | some y => if y.2 > x.2 then some y else some x

/-- `LLMManager.select_best_provider` (llm_manager.py lines 213-232):
keep enabled providers that can handle the request, score each, sort by
score descending (stable), return the first or `none`. -/
def select_best_provider (m : List ManagerProvider) (req : LLMRequest) :
    Option ManagerProvider :=
  let available := m.filter fun p =>
    p.config.enabled && can_handle_request p.config req
  let scored := available.map fun p => (p, calculate_provider_score p req)
  (sortDesc scored).head?.map fun x => x.1

/-- `LLMManager.register_provider` (llm_manager.py lines 135-146): store
the config under its name and reset its usage_stats and
performance_history.  A Python dict keeps the original position of an
existing key, so re-registration replaces in place; a new name is
appended. -/
def register_provider (m : List ManagerProvider) (cfg : LLMProviderConfig) :
    List ManagerProvider :=
  if m.any fun p => p.config.name == cfg.name then
    m.map fun p =>
      if p.config.name = cfg.name then ⟨cfg, fresh_usage, []⟩ else p
  else
    m ++ [⟨cfg, fresh_usage, []⟩]

/-- `LLMManager._update_stats` (llm_manager.py lines 330-346): bump the
request counter, add tokens and cost on success or bump the error
counter on failure, append the latency and trim the history to its last
100 entries.  `resp` carries `(tokens_used, cost)` of a successful
response, `none` on failure. -/
def update_stats (m : List ManagerProvider) (nm : String)
    (resp : Option (Nat × ℚ)) (latency : ℚ) : List ManagerProvider :=
  m.map fun p =>
    if p.config.name = nm then
      let u := p.usage
      let u := { u with requests := u.requests + 1 }
      let u :=
        match resp with
        | some r => { u with total_tokens := u.total_tokens + r.1,
                             total_cost := u.total_cost + r.2 }
        | none => { u with errors := u.errors + 1 }
      let h := p.history ++ [latency]
      let h := if h.length > 100 then lastN 100 h else h
      { p with usage := u, history := h }
    else p

/-- Line 299 of llm_manager.py: `provider.config.enabled = False` for the
provider that just failed. -/
def disable_provider (m : List ManagerProvider) (nm : String) :
    List ManagerProvider :=
  m.map fun p =>
    if p.config.name = nm then
      { p with config := { p.config with enabled := false } }
    else p

/-- Terminal outcome of `LLMManager.generate`.  `ok` is a returned
response, `noProvider` the `No available providers for request`
exception, `allFailed` the `All providers failed` exception carrying the
attempt index of the last underlying error (`none` when no attempt ran,
printing as `Last error: None`).  `invalidConfiguration` is the outcome
the spec's error taxonomy prescribes for a non-positive retry budget;
the source never constructs it. -/
inductive GenOutcome where
  | ok (providerName : String) : GenOutcome
  | noProvider : GenOutcome
  | allFailed (lastError : Option Nat) : GenOutcome
  | invalidConfiguration : GenOutcome
deriving DecidableEq

/-- Result of one `LLMManager.generate` call: its outcome, the providers
dispatched to in order, and the final provider map. -/
structure GenResult where
  outcome : GenOutcome
  dispatched : List String
  final : List ManagerProvider
deriving DecidableEq

/-- Retry loop of `LLMManager.generate` (llm_manager.py lines 272-304).
`adapter attempt name` is the outcome of `provider.generate(request)` at
that attempt (`some (tokens, cost)` on success, `none` on exception) and
`lat attempt` the measured latency.  On failure the provider is disabled
(line 299) before the next attempt; the fire-and-forget re-enable task
(lines 302, 348-356) sleeps at least 2 seconds and probes before
re-enabling, so it is modelled as not completing within the call. -/
def generateGo (adapter : Nat → String → Option (Nat × ℚ)) (lat : Nat → ℚ)
    (req : LLMRequest) :
    Nat → Nat → List ManagerProvider → List String → Option Nat → GenResult
  | 0, _, m, ds, lastErr => ⟨.allFailed lastErr, ds.reverse, m⟩
  | fuel + 1, attempt, m, ds, lastErr =>
      match select_best_provider m req with
      | none => ⟨.noProvider, ds.reverse, m⟩
      | some p =>
          match adapter attempt p.config.name with
          | some resp =>
              ⟨.ok p.config.name, (p.config.name :: ds).reverse,
               update_stats m p.config.name (some resp) (lat attempt)⟩
          | none =>
              generateGo adapter lat req fuel (attempt + 1)
                (disable_provider
                  (update_stats m p.config.name none (lat attempt))
                  p.config.name)
                (p.config.name :: ds) (some attempt)

/-- `LLMManager.generate` (llm_manager.py lines 272-304) with an explicit
retry budget: `range(max_retries)` runs `max_retries.toNat` iterations
(zero when the budget is zero or negative). -/
def generate (m : List ManagerProvider)
    (adapter : Nat → String → Option (Nat × ℚ)) (lat : Nat → ℚ)
    (req : LLMRequest) (max_retries : Int) : GenResult :=
  generateGo adapter lat req max_retries.toNat 0 m [] none

/-- Backoff delay of `LLMManager._re_enable_provider` (llm_manager.py
line 350): `delay = min(300, 2 ** attempt)`. -/
def re_enable_delay (attempt : Nat) : Nat :=
  min 300 (2 ^ attempt)

/-- Step effect of one completed `execute_request` call on the request
counters and the in-flight gauge: the total counter grows by one, the
success/failure split grows by one in all, and the in-flight gauge
returns to its pre-call value. -/
theorem applyOp_counters (s : ProviderStats) (op : LBOp) :
    (applyOp s op).total_requests = s.total_requests + 1 ∧
    (applyOp s op).successful_requests + (applyOp s op).failed_requests =
      s.successful_requests + s.failed_requests + 1 ∧
    (applyOp s op).current_load = s.current_load := by
  cases op with
  | success t now =>
      refine ⟨?_, ?_, ?_⟩ <;> simp [applyOp, recordSuccess] <;> omega
  | failure t now =>
      refine ⟨?_, ?_, ?_⟩ <;> simp only [applyOp, recordFailure] <;>
        split_ifs <;> simp <;> omega

/-- C1 counterexample: the failure that brings a provider to
`totalRequests == 10` and `failureCount == 6` does NOT disable it in the
source (`load_balancer.py` line 193 requires `total_requests > 10`,
strictly): the provider is still available afterwards. -/
theorem recordFailure_at_ten_sixth_failure_stays_available :
    (recordFailure { name := "p", total_requests := 9,
                     successful_requests := 4, failed_requests := 5 }
      1 0).is_available = true ∧
    (recordFailure { name := "p", total_requests := 9,
                     successful_requests := 4, failed_requests := 5 }
      1 0).total_requests = 10 ∧
    (recordFailure { name := "p", total_requests := 9,
                     successful_requests := 4, failed_requests := 5 }
      1 0).failed_requests = 6 := by
  norm_num [recordFailure]

/-- C1 (amended): `recordFailure` leaves the provider unavailable exactly
when, measured on the counters after the increment, the failure rate
exceeds one half AND `totalRequests` strictly exceeds 10 (so the first
total at which a disable can happen is 11), or the provider was already
unavailable; in particular a provider brought to `totalRequests == 11`
with `failureCount == 6` is disabled by that call. -/
theorem recordFailure_disables_iff :
    (∀ (s : ProviderStats) (t now : ℚ),
      ((recordFailure s t now).is_available = false ↔
        (((s.failed_requests + 1 : ℕ) : ℚ) / ((s.total_requests + 1 : ℕ) : ℚ)
              > 1/2 ∧
            s.total_requests + 1 > 10) ∨
          s.is_available = false)) ∧
    (recordFailure { name := "p", total_requests := 10,
                     successful_requests := 5, failed_requests := 5 }
      1 0).is_available = false := by
  constructor
  · intro s t now
    simp only [recordFailure]
    split_ifs with h
    · simpa using Or.inl h
    · constructor
      · exact fun hx => Or.inr hx
      · rintro (hc | hx)
        · exact absurd hc h
        · exact hx
  · norm_num [recordFailure]

/-- C2: for every sequence of completed success/failure recordings on one
provider starting from the fresh statistics that `add_provider` creates,
`total_requests` equals `successful_requests + failed_requests` and the
in-flight gauge `current_load` is non-negative after every completed
call (the sequence being arbitrary, the invariant holds after each
prefix). -/
theorem counters_invariant (name : String) (cost : ℚ) (ops : List LBOp) :
    (applyOps (initStats name cost) ops).total_requests =
      (applyOps (initStats name cost) ops).successful_requests +
        (applyOps (initStats name cost) ops).failed_requests ∧
    0 ≤ (applyOps (initStats name cost) ops).current_load := by
  have key : ∀ (l : List LBOp) (s : ProviderStats),
      s.total_requests = s.successful_requests + s.failed_requests →
      0 ≤ s.current_load →
      (applyOps s l).total_requests =
        (applyOps s l).successful_requests + (applyOps s l).failed_requests ∧
      0 ≤ (applyOps s l).current_load := by
    intro l
    induction l with
    | nil => intro s h1 h2; simpa [applyOps] using ⟨h1, h2⟩
    | cons op t ih =>
        intro s h1 h2
        obtain ⟨e1, e2, e3⟩ := applyOp_counters s op
        have hrw : applyOps s (op :: t) = applyOps (applyOp s op) t := by
          simp [applyOps]
        rw [hrw]
        exact ih _ (by omega) (by omega)
  exact key ops _ (by simp [initStats]) (by simp [initStats])

/-- C9: round-robin over a fixed set of three available providers,
starting from cursor 0, visits them in rotating order over six calls,
selecting each provider exactly twice; and the cursor advances by
exactly one on every call. -/
theorem round_robin_rotation (a b c : String)
    (hab : a ≠ b) (hac : a ≠ c) (hbc : b ≠ c) :
    rr_selections [a, b, c] 6 0 =
      [some a, some b, some c, some a, some b, some c] ∧
    (rr_selections [a, b, c] 6 0).count (some a) = 2 ∧
    (rr_selections [a, b, c] 6 0).count (some b) = 2 ∧
    (rr_selections [a, b, c] 6 0).count (some c) = 2 ∧
    ∀ (avail : List String) (i : Nat), (round_robin avail i).2 = i + 1 := by
  have hlist : rr_selections [a, b, c] 6 0 =
      [some a, some b, some c, some a, some b, some c] := by
    simp [rr_selections, round_robin]
  refine ⟨hlist, ?_, ?_, ?_, fun avail i => rfl⟩ <;>
    rw [hlist] <;>
    simp [List.count_cons, hab, hac, hbc, hab.symm, hac.symm, hbc.symm]

/-- Witness for C9 at a concrete set of three provider names. -/
theorem round_robin_rotation_witness :
    rr_selections ["a", "b", "c"] 6 0 =
      [some "a", some "b", some "c", some "a", some "b", some "c"] :=
  (round_robin_rotation "a" "b" "c" (by decide) (by decide) (by decide)).1

/-- C10: the recovery delay computed before the health probe equals
`min(300, 2 ^ attempt)`: it is capped at 300 seconds, equals the pure
exponential below the cap, equals 300 above it, and in particular gives
32 seconds at attempt 5 and 300 seconds at attempt 10. -/
theorem re_enable_delay_spec :
    re_enable_delay 5 = 32 ∧ re_enable_delay 10 = 300 ∧
    ∀ attempt : Nat,
      re_enable_delay attempt ≤ 300 ∧
      (2 ^ attempt ≤ 300 → re_enable_delay attempt = 2 ^ attempt) ∧
      (300 < 2 ^ attempt → re_enable_delay attempt = 300) := by
  refine ⟨by norm_num [re_enable_delay], by norm_num [re_enable_delay],
    fun attempt => ⟨min_le_left _ _, ?_, ?_⟩⟩
  · intro h; simp [re_enable_delay, min_eq_right h]
  · intro h; simp [re_enable_delay, min_eq_left h.le]

/-- Witness for C10 on both sides of the cap. -/
theorem re_enable_delay_spec_witness :
    re_enable_delay 8 = 256 ∧ re_enable_delay 9 = 300 :=
  ⟨(re_enable_delay_spec.2.2 8).2.1 (by norm_num),
   (re_enable_delay_spec.2.2 9).2.2 (by norm_num)⟩

/-- Membership through stable insertion. -/
theorem mem_insertDesc {α : Type} {y x : α × ℚ} {l : List (α × ℚ)}
    (h : y ∈ insertDesc x l) : y = x ∨ y ∈ l := by
  induction l with
  | nil => simpa [insertDesc] using h
  | cons z t ih =>
      simp only [insertDesc] at h
      split_ifs at h with hc
      · simpa using h
      · rcases List.mem_cons.1 h with h1 | h2
        · exact Or.inr (by simp [h1])
        · rcases ih h2 with h3 | h4
          · exact Or.inl h3
          · exact Or.inr (List.mem_cons_of_mem _ h4)

/-- Membership through the stable sort. -/
theorem mem_sortDesc {α : Type} {y : α × ℚ} {l : List (α × ℚ)}
    (h : y ∈ sortDesc l) : y ∈ l := by
  induction l with
  | nil => simpa [sortDesc] using h
  | cons x t ih =>
      rcases mem_insertDesc (by simpa [sortDesc] using h) with h1 | h2
      · simp [h1]
      · exact List.mem_cons_of_mem _ (ih h2)

/-- Head of a list from its `head?`. -/
theorem mem_of_head_some {α : Type} {l : List α} {a : α}
    (h : l.head? = some a) : a ∈ l := by
  cases l <;> simp_all

/-- Head of the stable descending sort: the first element of the original
list attaining the maximal score (a later element displaces an earlier
one only with a strictly larger score). -/
theorem head_sortDesc {α : Type} (l : List (α × ℚ)) :
    (sortDesc l).head? = firstMaxByScore l := by
  induction l with
  | nil => rfl
  | cons x t ih =>
      cases hs : sortDesc t with
      | nil =>
          have hf : firstMaxByScore t = none := by rw [← ih, hs]; rfl
          simp [sortDesc, firstMaxByScore, hs, hf, insertDesc]
      | cons y s =>
          have hf : firstMaxByScore t = some y := by rw [← ih, hs]; rfl
          simp only [sortDesc, firstMaxByScore, hs, hf, insertDesc]
          split_ifs with h1 h2 h3
          · exact absurd h2 (not_lt.mpr h1)
          · simp
          · simp
          · exact absurd (lt_of_not_ge h1) h3

/-- Selection only ever returns a registered, enabled, capable provider. -/
theorem select_best_provider_mem {m : List ManagerProvider}
    {req : LLMRequest} {p : ManagerProvider}
    (h : select_best_provider m req = some p) :
    p ∈ m ∧ p.config.enabled = true ∧
      can_handle_request p.config req = true := by
  simp only [select_best_provider] at h
  obtain ⟨⟨q, sc⟩, hq, hfst⟩ := Option.map_eq_some'.mp h
  obtain ⟨r, hr, hpair⟩ := List.mem_map.1 (mem_sortDesc (mem_of_head_some hq))
  obtain ⟨hq1, _⟩ := Prod.mk.injEq .. ▸ hpair
  have hrq : r = p := by
    cases hpair; simpa using hfst
  subst hrq
  have := List.mem_filter.1 hr
  refine ⟨this.1, ?_⟩
  have hb := this.2
  simp only [Bool.and_eq_true] at hb
  exact hb

/-- C6 (amended): ties between equally scored candidates are broken by
registration (insertion) order, not by priority or id: selection always
returns the FIRST candidate, in registration order, whose score is
maximal — a later candidate displaces an earlier one only with a
strictly larger score, because the source sorts with Python's stable
sort keyed on the score alone. -/
theorem select_tie_breaks_by_registration_order
    (m : List ManagerProvider) (req : LLMRequest) :
    select_best_provider m req =
      (firstMaxByScore
        ((m.filter fun p =>
            p.config.enabled && can_handle_request p.config req).map
          fun p => (p, calculate_provider_score p req))).map
        fun x => x.1 := by
  simp only [select_best_provider]
  rw [head_sortDesc]

/-- C6 counterexample: two enabled fresh providers with exactly equal
scores — id "b" with priority 3 / tier FREE registered first, id "a"
with priority 1 / tier FREEMIUM registered second.  The source selects
the first-registered "b", which has the strictly larger priority number
and the lexicographically larger id, and swapping registration order
flips the selection — refuting the claimed priority-then-id tie-break
and its independence from registration order. -/
theorem select_tie_break_counterexample :
    calculate_provider_score
        ⟨{ name := "b", tier := .FREE, priority := 3 }, fresh_usage, []⟩ {} =
      calculate_provider_score
        ⟨{ name := "a", tier := .FREEMIUM, priority := 1 }, fresh_usage, []⟩
        {} ∧
    select_best_provider
        [⟨{ name := "b", tier := .FREE, priority := 3 }, fresh_usage, []⟩,
         ⟨{ name := "a", tier := .FREEMIUM, priority := 1 }, fresh_usage, []⟩]
        {} =
      some ⟨{ name := "b", tier := .FREE, priority := 3 }, fresh_usage, []⟩ ∧
    select_best_provider
        [⟨{ name := "a", tier := .FREEMIUM, priority := 1 }, fresh_usage, []⟩,
         ⟨{ name := "b", tier := .FREE, priority := 3 }, fresh_usage, []⟩]
        {} =
      some ⟨{ name := "a", tier := .FREEMIUM, priority := 1 }, fresh_usage,
        []⟩ := by
  refine ⟨?_, ?_, ?_⟩ <;>
    norm_num [select_best_provider, calculate_provider_score, tier_score,
      estimate_cost, fresh_usage, can_handle_request, sortDesc, insertDesc,
      lastN]

/-- C7: two registered providers identical in tier, cost, capability
flags, fresh statistics and empty history, differing only in priority 1
versus priority 2: the priority-1 provider's score is strictly higher
and it is the one selected, in either registration order. -/
theorem lower_priority_scores_higher_and_wins
    (t : ProviderTier) (c : ℚ) (sv sf : Bool) (n1 n2 : String)
    (req : LLMRequest)
    (h : can_handle_request
      { name := n1, tier := t, priority := 1, cost_per_token := c,
        supports_vision := sv, supports_functions := sf } req = true) :
    calculate_provider_score
        ⟨{ name := n1, tier := t, priority := 1, cost_per_token := c,
           supports_vision := sv, supports_functions := sf },
         fresh_usage, []⟩ req >
      calculate_provider_score
        ⟨{ name := n2, tier := t, priority := 2, cost_per_token := c,
           supports_vision := sv, supports_functions := sf },
         fresh_usage, []⟩ req ∧
    select_best_provider
        [⟨{ name := n1, tier := t, priority := 1, cost_per_token := c,
            supports_vision := sv, supports_functions := sf },
          fresh_usage, []⟩,
         ⟨{ name := n2, tier := t, priority := 2, cost_per_token := c,
            supports_vision := sv, supports_functions := sf },
          fresh_usage, []⟩] req =
      some ⟨{ name := n1, tier := t, priority := 1, cost_per_token := c,
              supports_vision := sv, supports_functions := sf },
            fresh_usage, []⟩ ∧
    select_best_provider
        [⟨{ name := n2, tier := t, priority := 2, cost_per_token := c,
            supports_vision := sv, supports_functions := sf },
          fresh_usage, []⟩,
         ⟨{ name := n1, tier := t, priority := 1, cost_per_token := c,
            supports_vision := sv, supports_functions := sf },
          fresh_usage, []⟩] req =
      some ⟨{ name := n1, tier := t, priority := 1, cost_per_token := c,
              supports_vision := sv, supports_functions := sf },
            fresh_usage, []⟩ := by
  have h2 : can_handle_request
      { name := n2, tier := t, priority := 2, cost_per_token := c,
        supports_vision := sv, supports_functions := sf } req = true := h
  have hscore : calculate_provider_score
      ⟨{ name := n1, tier := t, priority := 1, cost_per_token := c,
         supports_vision := sv, supports_functions := sf },
       fresh_usage, []⟩ req >
      calculate_provider_score
        ⟨{ name := n2, tier := t, priority := 2, cost_per_token := c,
           supports_vision := sv, supports_functions := sf },
         fresh_usage, []⟩ req := by
    norm_num [calculate_provider_score, fresh_usage, estimate_cost]
  refine ⟨hscore, ?_, ?_⟩
  · simp [select_best_provider, h, h2, sortDesc, insertDesc, ge_iff_le,
      hscore.le]
  · simp [select_best_provider, h, h2, sortDesc, insertDesc, ge_iff_le,
      not_le.mpr hscore]

/-- Witness for C7 at tier FREE, zero cost, no capability requirements. -/
theorem lower_priority_scores_higher_and_wins_witness :
    calculate_provider_score
        ⟨{ name := "a", tier := .FREE, priority := 1, cost_per_token := 0,
           supports_vision := false, supports_functions := false },
         fresh_usage, []⟩ {} >
      calculate_provider_score
        ⟨{ name := "b", tier := .FREE, priority := 2, cost_per_token := 0,
           supports_vision := false, supports_functions := false },
         fresh_usage, []⟩ {} ∧
    select_best_provider
        [⟨{ name := "a", tier := .FREE, priority := 1, cost_per_token := 0,
            supports_vision := false, supports_functions := false },
          fresh_usage, []⟩,
         ⟨{ name := "b", tier := .FREE, priority := 2, cost_per_token := 0,
            supports_vision := false, supports_functions := false },
          fresh_usage, []⟩] {} =
      some ⟨{ name := "a", tier := .FREE, priority := 1, cost_per_token := 0,
              supports_vision := false, supports_functions := false },
            fresh_usage, []⟩ ∧
    select_best_provider
        [⟨{ name := "b", tier := .FREE, priority := 2, cost_per_token := 0,
            supports_vision := false, supports_functions := false },
          fresh_usage, []⟩,
         ⟨{ name := "a", tier := .FREE, priority := 1, cost_per_token := 0,
            supports_vision := false, supports_functions := false },
          fresh_usage, []⟩] {} =
      some ⟨{ name := "a", tier := .FREE, priority := 1, cost_per_token := 0,
              supports_vision := false, supports_functions := false },
            fresh_usage, []⟩ :=
  lower_priority_scores_higher_and_wins .FREE 0 false false "a" "b" {}
    (by decide)

/-- Map with a function that fixes every element of a list. -/
theorem map_id_of_eq {α : Type} {f : α → α} {l : List α}
    (h : ∀ x ∈ l, f x = x) : l.map f = l := by
  induction l with
  | nil => rfl
  | cons a t ih => simp_all

/-- Every registry entry bearing the just-registered name is exactly the
freshly stored entry. -/
theorem register_provider_entry {m : List ManagerProvider}
    {cfg : LLMProviderConfig} {q : ManagerProvider}
    (hq : q ∈ register_provider m cfg) (hname : q.config.name = cfg.name) :
    q = ⟨cfg, fresh_usage, []⟩ := by
  simp only [register_provider] at hq
  split_ifs at hq with hc
  · obtain ⟨p, hp, hqe⟩ := List.mem_map.1 hq
    by_cases hpc : p.config.name = cfg.name
    · rw [if_pos hpc] at hqe; exact hqe.symm
    · rw [if_neg hpc] at hqe
      exact absurd (hqe ▸ hname) hpc
  · rcases List.mem_append.1 hq with h1 | h1
    · exfalso
      apply hc
      exact List.any_eq_true.2 ⟨q, h1, by simp [hname]⟩
    · simpa using h1

/-- C5 (amended): `register_provider` performs no validation — every
descriptor, including one with a negative costPerToken or an empty id,
is stored as given with fresh statistics — and registration is
idempotent by id: registering the same descriptor again replaces the
entry in place (a second registration changes nothing), and the registry
grows by one exactly when the id was previously absent. -/
theorem register_provider_spec (m : List ManagerProvider)
    (cfg : LLMProviderConfig) :
    (⟨cfg, fresh_usage, []⟩ : ManagerProvider) ∈ register_provider m cfg ∧
    register_provider (register_provider m cfg) cfg =
      register_provider m cfg ∧
    (register_provider m cfg).length =
      (if m.any fun p => p.config.name == cfg.name then m.length
       else m.length + 1) := by
  have hmem : (⟨cfg, fresh_usage, []⟩ : ManagerProvider) ∈
      register_provider m cfg := by
    simp only [register_provider]
    split_ifs with hc
    · obtain ⟨p, hp, hbeq⟩ := List.any_eq_true.1 hc
      refine List.mem_map.2 ⟨p, hp, ?_⟩
      rw [if_pos (by simpa using hbeq)]
    · simp
  refine ⟨hmem, ?_, ?_⟩
  · have hany : (register_provider m cfg).any
        (fun p => p.config.name == cfg.name) = true :=
      List.any_eq_true.2 ⟨_, hmem, by simp⟩
    rw [register_provider, if_pos hany]
    apply map_id_of_eq
    intro q hq
    by_cases hn : q.config.name = cfg.name
    · rw [if_pos hn, register_provider_entry hq hn]
    · rw [if_neg hn]
  · simp only [register_provider]
    split_ifs <;> simp

/-- C5 counterexample: a descriptor with an empty id AND a negative
costPerToken is accepted without any error: starting from an empty
registry, `register_provider` stores exactly that descriptor, so the
registry does change and no ConfigurationError occurs. -/
theorem register_no_validation_counterexample :
    register_provider []
        { name := "", tier := .PAID, priority := 1, cost_per_token := -1 } =
      [⟨{ name := "", tier := .PAID, priority := 1, cost_per_token := -1 },
        fresh_usage, []⟩] ∧
    ({ name := "", tier := .PAID, priority := 1,
       cost_per_token := -1 } : LLMProviderConfig).cost_per_token < 0 ∧
    ({ name := "", tier := .PAID, priority := 1,
       cost_per_token := -1 } : LLMProviderConfig).name = "" := by
  refine ⟨by simp [register_provider], by norm_num, rfl⟩

/-- C4 (amended): a retry budget of 0 or a negative one makes `generate`
run zero loop iterations: no provider selection, no dispatch (the
adapter is never consulted and the dispatched list is empty), the
provider map is untouched, and the call fails with the
`All providers failed. Last error: None` exception — not with an
InvalidConfiguration error, which the source never raises. -/
theorem generate_nonpositive_retries (m : List ManagerProvider)
    (adapter : Nat → String → Option (Nat × ℚ)) (lat : Nat → ℚ)
    (req : LLMRequest) (mr : Int) (hmr : mr ≤ 0) :
    generate m adapter lat req mr = ⟨.allFailed none, [], m⟩ := by
  simp [generate, Int.toNat_of_nonpos hmr, generateGo]

/-- Witness for the amended C4 at a negative retry budget. -/
theorem generate_nonpositive_retries_witness :
    generate [] (fun _ _ => none) (fun _ => 0) {} (-2) =
      ⟨.allFailed none, [], []⟩ :=
  generate_nonpositive_retries [] (fun _ _ => none) (fun _ => 0) {} (-2)
    (by norm_num)

/-- C4 counterexample: `generate` called with maxRetries = 0 on a
registry holding one enabled capable provider, with an adapter that
would succeed: the outcome is the `All providers failed` exception with
no recorded error and nothing dispatched — not an InvalidConfiguration
error. -/
theorem generate_zero_retries_counterexample :
    generate [⟨{ name := "a", tier := .FREE }, fresh_usage, []⟩]
        (fun _ _ => some (1, 0)) (fun _ => 0) {} 0 =
      ⟨.allFailed none, [],
       [⟨{ name := "a", tier := .FREE }, fresh_usage, []⟩]⟩ ∧
    GenOutcome.allFailed none ≠ GenOutcome.invalidConfiguration := by
  exact ⟨by simp [generate, generateGo], by simp⟩

/-- When no registered provider is both enabled and capable of the
request, selection returns none. -/
theorem select_none_of_no_candidate {m : List ManagerProvider}
    {req : LLMRequest}
    (h : ∀ p ∈ m, p.config.enabled = false ∨
        can_handle_request p.config req = false) :
    select_best_provider m req = none := by
  have hf : (m.filter fun p =>
      p.config.enabled && can_handle_request p.config req) = [] := by
    simp only [List.filter_eq_nil_iff]
    intro p hp
    rcases h p hp with h1 | h1 <;> simp [h1]
  simp [select_best_provider, hf, sortDesc]

/-- C8: with at least one retry available and no enabled capable
provider, `generate` fails on its very first attempt with the
`No available providers for request` exception: the result is the same
for every adapter (so no execution adapter is ever invoked), the
dispatched list is empty, the provider map is untouched, and no further
retry attempts are consumed. -/
theorem generate_no_provider (m : List ManagerProvider)
    (adapter : Nat → String → Option (Nat × ℚ)) (lat : Nat → ℚ)
    (req : LLMRequest) (mr : Int) (hmr : 1 ≤ mr)
    (h : ∀ p ∈ m, p.config.enabled = false ∨
        can_handle_request p.config req = false) :
    generate m adapter lat req mr = ⟨.noProvider, [], m⟩ := by
  obtain ⟨k, hk⟩ : ∃ k, mr.toNat = k + 1 := ⟨mr.toNat - 1, by omega⟩
  simp [generate, hk, generateGo, select_none_of_no_candidate h]

/-- Witness for C8: one disabled provider, three retries allowed. -/
theorem generate_no_provider_witness :
    generate [⟨{ name := "a", tier := .FREE, enabled := false },
               fresh_usage, []⟩]
        (fun _ _ => some (1, 0)) (fun _ => 0) {} 3 =
      ⟨.noProvider, [],
       [⟨{ name := "a", tier := .FREE, enabled := false },
         fresh_usage, []⟩]⟩ :=
  generate_no_provider _ _ _ _ 3 (by norm_num) (by simp)

/-- Predicate: every registry entry bearing one of the listed names is
disabled. -/
def AllDisabled (m : List ManagerProvider) (ds : List String) : Prop :=
  ∀ n ∈ ds, ∀ p ∈ m, p.config.name = n → p.config.enabled = false

/-- Statistics updates never touch a provider's config. -/
theorem update_stats_config {m : List ManagerProvider} {nm : String}
    {resp : Option (Nat × ℚ)} {lt : ℚ} :
    ∀ q ∈ update_stats m nm resp lt, ∃ p ∈ m, q.config = p.config := by
  intro q hq
  simp only [update_stats, List.mem_map] at hq
  obtain ⟨p, hp, rfl⟩ := hq
  refine ⟨p, hp, ?_⟩
  split_ifs <;> rfl

/-- Statistics updates preserve every disabled flag. -/
theorem allDisabled_update_stats {m : List ManagerProvider}
    {ds : List String} {nm : String} {resp : Option (Nat × ℚ)} {lt : ℚ}
    (h : AllDisabled m ds) : AllDisabled (update_stats m nm resp lt) ds := by
  intro n hn q hq hname
  obtain ⟨p, hp, hcfg⟩ := update_stats_config q hq
  rw [hcfg] at hname ⊢
  exact h n hn p hp hname

/-- After `disable_provider m nm`, every entry named `nm` is disabled. -/
theorem disable_provider_self {m : List ManagerProvider} {nm : String} :
    ∀ q ∈ disable_provider m nm, q.config.name = nm →
      q.config.enabled = false := by
  intro q hq hname
  simp only [disable_provider, List.mem_map] at hq
  obtain ⟨p, hp, rfl⟩ := hq
  by_cases hc : p.config.name = nm
  · simp [hc]
  · rw [if_neg hc] at hname ⊢
    exact absurd hname hc

/-- `disable_provider` keeps names and never turns a provider on. -/
theorem disable_provider_keeps {m : List ManagerProvider} {nm : String} :
    ∀ q ∈ disable_provider m nm, ∃ p ∈ m,
      q.config.name = p.config.name ∧
      (q.config.enabled = true → p.config.enabled = true) := by
  intro q hq
  simp only [disable_provider, List.mem_map] at hq
  obtain ⟨p, hp, rfl⟩ := hq
  refine ⟨p, hp, ?_⟩
  split_ifs <;> simp

/-- One failing attempt extends the disabled-name invariant by the name
of the provider that just failed. -/
theorem allDisabled_after_failure {m : List ManagerProvider}
    {ds : List String} {nm : String} {lt : ℚ}
    (h : AllDisabled m ds) :
    AllDisabled (disable_provider (update_stats m nm none lt) nm)
      (nm :: ds) := by
  intro n hn q hq hname
  rcases List.mem_cons.1 hn with rfl | hds
  · exact disable_provider_self q hq hname
  · obtain ⟨p, hp, hnm, himp⟩ := disable_provider_keeps q hq
    obtain ⟨p0, hp0, hcfg⟩ := update_stats_config p hp
    have hp0n : p0.config.name = n := by
      rw [← hcfg, ← hnm]; exact hname
    have hpe : p.config.enabled = false := by
      rw [hcfg]; exact h n hds p0 hp0 hp0n
    cases hqe : q.config.enabled with
    | false => rfl
    | true => exact absurd (himp hqe) (by rw [hpe]; simp)

/-- Retry-loop invariant: starting from a no-duplicate list of
already-disabled dispatched names, the loop never dispatches a name
twice, and every dispatched provider not credited with the returned
response finishes disabled. -/
theorem generateGo_spec (adapter : Nat → String → Option (Nat × ℚ))
    (lat : Nat → ℚ) (req : LLMRequest) :
    ∀ (fuel attempt : Nat) (m : List ManagerProvider) (ds : List String)
      (lastErr : Option Nat), ds.Nodup → AllDisabled m ds →
      (generateGo adapter lat req fuel attempt m ds lastErr).dispatched.Nodup ∧
      ∀ n ∈ (generateGo adapter lat req fuel attempt m ds lastErr).dispatched,
        (generateGo adapter lat req fuel attempt m ds lastErr).outcome ≠
          GenOutcome.ok n →
        ∀ p ∈ (generateGo adapter lat req fuel attempt m ds lastErr).final,
          p.config.name = n → p.config.enabled = false := by
  intro fuel
  induction fuel with
  | zero =>
      intro attempt m ds lastErr hnd hall
      constructor
      · simpa [generateGo] using hnd
      · intro n hn _ p hp hname
        simp only [generateGo] at hn hp
        exact hall n (List.mem_reverse.1 hn) p hp hname
  | succ f ih =>
      intro attempt m ds lastErr hnd hall
      cases hsel : select_best_provider m req with
      | none =>
          constructor
          · simp only [generateGo, hsel]
            simpa using hnd
          · intro n hn _ p hp hname
            simp only [generateGo, hsel] at hn hp
            exact hall n (List.mem_reverse.1 hn) p hp hname
      | some q =>
          obtain ⟨hqm, hqe, hqc⟩ := select_best_provider_mem hsel
          have hqds : q.config.name ∉ ds := by
            intro hmem
            have := hall _ hmem q hqm rfl
            rw [hqe] at this
            exact Bool.noConfusion this
          cases had : adapter attempt q.config.name with
          | some resp =>
              constructor
              · simp only [generateGo, hsel, had]
                exact List.nodup_reverse.2 (List.nodup_cons.2 ⟨hqds, hnd⟩)
              · intro n hn hout p hp hname
                simp only [generateGo, hsel, had] at hn hout hp
                rcases List.mem_cons.1 (List.mem_reverse.1 hn) with rfl | hds
                · exact absurd rfl hout
                · exact allDisabled_update_stats hall n hds p hp hname
          | none =>
              have hstep := ih (attempt + 1)
                (disable_provider
                  (update_stats m q.config.name none (lat attempt))
                  q.config.name)
                (q.config.name :: ds) (some attempt)
                (List.nodup_cons.2 ⟨hqds, hnd⟩)
                (allDisabled_after_failure hall)
              constructor
              · simpa only [generateGo, hsel, had] using hstep.1
              · simpa only [generateGo, hsel, had] using hstep.2

/-- C3: within one `generate` call every adapter failure immediately
disables the failed provider (llm_manager.py line 299 runs before the
next attempt, regardless of the provider's failure rate or request
count), and selection filters out disabled providers, so the list of
dispatched providers of one call never repeats a name; moreover every
dispatched provider other than the one credited with the returned
response is left disabled in the final provider map. -/
theorem generate_never_dispatches_twice (m : List ManagerProvider)
    (adapter : Nat → String → Option (Nat × ℚ)) (lat : Nat → ℚ)
    (req : LLMRequest) (mr : Int) :
    (generate m adapter lat req mr).dispatched.Nodup ∧
    ∀ n ∈ (generate m adapter lat req mr).dispatched,
      (generate m adapter lat req mr).outcome ≠ GenOutcome.ok n →
      ∀ p ∈ (generate m adapter lat req mr).final,
        p.config.name = n → p.config.enabled = false :=
  generateGo_spec adapter lat req mr.toNat 0 m [] none (by simp)
    (by intro n hn; simp at hn)

/-- Witness for C3: one enabled provider, an always-failing adapter, two
retries: the dispatched list (which evaluates to just one entry for that
provider) has no duplicates, and instantiating the disabled-afterwards
part at the provider's final entry discharges every hypothesis. -/
theorem generate_never_dispatches_twice_witness :
    (generate [⟨{ name := "a", tier := .FREE }, fresh_usage, []⟩]
        (fun _ _ => none) (fun _ => 0) {} 2).dispatched.Nodup ∧
    (⟨{ name := "a", tier := .FREE, enabled := false },
      { requests := 1, errors := 1 }, [0]⟩ : ManagerProvider).config.enabled
      = false :=
  ⟨(generate_never_dispatches_twice
      [⟨{ name := "a", tier := .FREE }, fresh_usage, []⟩]
      (fun _ _ => none) (fun _ => 0) {} 2).1,
   (generate_never_dispatches_twice
      [⟨{ name := "a", tier := .FREE }, fresh_usage, []⟩]
      (fun _ _ => none) (fun _ => 0) {} 2).2 "a"
     (by norm_num [generate, generateGo, select_best_provider,
        calculate_provider_score, tier_score, estimate_cost, fresh_usage,
        can_handle_request, sortDesc, insertDesc, update_stats,
        disable_provider, lastN])
     (by norm_num [generate, generateGo, select_best_provider,
        calculate_provider_score, tier_score, estimate_cost, fresh_usage,
        can_handle_request, sortDesc, insertDesc, update_stats,
        disable_provider, lastN]; simp)
     ⟨{ name := "a", tier := .FREE, enabled := false },
      { requests := 1, errors := 1 }, [0]⟩
     (by norm_num [generate, generateGo, select_best_provider,
        calculate_provider_score, tier_score, estimate_cost, fresh_usage,
        can_handle_request, sortDesc, insertDesc, update_stats,
        disable_provider, lastN])
     rfl⟩

end SwiftAgent
